import Mathlib

/-
Shallow embedding of the ShoreSquad single-page application.

Two source files are modelled, each in its own namespace:
  * `ShoreSquad` — the NEA-API variant (src/unnamed/part_000): weather
    forecast pipeline, join actions, crew management, localStorage
    persistence.
  * `App` — the open-meteo variant (src/js/app.js): its `displayWeather`
    renderer and fetch pipeline.

Modelling conventions:
  * JS numbers holding the gamification counters are integers in the
    source (all increments are integral), embedded as `Int`.
  * A JS object property that may be absent or `undefined` is an
    `Option`; `JSON.stringify` drops `undefined`-valued properties and a
    missing key reads back as `undefined`, so absence round-trips as
    `none`.
  * Arithmetic `x += d` on a possibly-undefined property is embedded as
    `Option.map (· + d)`: an absent operand never becomes a number again
    (in JS it is `NaN`), and a present one is incremented.
  * A thrown-and-caught JS exception is an `Option`/`Except` failure
    value routed to the same handler the source routes it to.
  * Platform/locale date formatting (`toLocaleDateString`) is an
    external capability, passed in as an uninterpreted function
    parameter.
  * Map coordinates are IEEE doubles in the source; they are embedded as
    `Rat` (the decimal literals are exact rationals) — no claim inspects
    them and no join action touches `userLocation`.
-/

namespace ShoreSquad

/-- Geographic coordinates, as stored in `appState.userLocation`. -/
structure LatLng where
  lat : Rat
  lng : Rat
deriving DecidableEq

/-- A crew member produced by `addCrewMember`:
`{ name, cleanup, joined }`. -/
structure CrewMember where
  name : String
  cleanup : String
  joined : String
deriving DecidableEq

/-- Element type of `appState.cleanups`. No code path in the source ever
pushes into `appState.cleanups`; it stays `[]` for the whole session, so
only the (empty) list shape is ever exercised. -/
structure Cleanup where
  name : String
deriving DecidableEq

/-- The `userStats` object. Each property is an `Option` because a
shallow merge on load can install a stored `userStats` object that lacks
some of the keys, leaving them `undefined`. Defaults are all `some 0`. -/
structure UserStatsObj where
  cleanupsJoined : Option Int
  trashCollected : Option Int
  pointsEarned : Option Int
deriving DecidableEq

/-- The global mutable `appState` shape. -/
structure AppState where
  userLocation : Option LatLng
  crew : List CrewMember
  cleanups : List Cleanup
  userStats : UserStatsObj
deriving DecidableEq

/-- The initial value of the `appState` global: zeroed stats, empty
crew and cleanups, no location. -/
def appState : AppState :=
  { userLocation := none
    crew := []
    cleanups := []
    userStats :=
      { cleanupsJoined := some 0
        trashCollected := some 0
        pointsEarned := some 0 } }

/-- The JSON image of `appState` under a fixed localStorage key. Each
field is `some v` when the key is present in the stored object (with a
possibly-`null` value for `userLocation`) and `none` when absent —
`JSON.parse` of a serialization that lacked the key. -/
structure StoredState where
  userLocation : Option (Option LatLng)
  crew : Option (List CrewMember)
  cleanups : Option (List Cleanup)
  userStats : Option UserStatsObj
deriving DecidableEq

/-- Embedding of `JSON.stringify(appState)`: every top-level key of `appState` is
always present in the output (a `null` location serializes as `null`,
not as an absent key). `undefined`-valued keys inside `userStats` are
dropped by `stringify`, which the `Option` fields already record. -/
def serializeAppState (s : AppState) : StoredState :=
  { userLocation := some s.userLocation
    crew := some s.crew
    cleanups := some s.cleanups
    userStats := some s.userStats }

/-- Embedding of `Object.assign(target, src)` over the four top-level keys of the
application state: each key present in `src` overwrites the target's
field wholesale; absent keys leave the target's field unchanged. No
recursion into nested objects. -/
def objectAssign (target : AppState) (src : StoredState) : AppState :=
  { userLocation := src.userLocation.getD target.userLocation
    crew := src.crew.getD target.crew
    cleanups := src.cleanups.getD target.cleanups
    userStats := src.userStats.getD target.userStats }

/-- Result of one `saveUserData()` call: the in-memory state afterwards,
what reached the storage medium (if it accepted the write), and the
`console.warn` diagnostic emitted on failure. The function is total:
the `try`/`catch` in the source means no exception escapes to the
caller. -/
structure SaveOutcome where
  state : AppState
  written : Option StoredState
  diagnostic : Option String
deriving DecidableEq

/-- Embedding of `saveUserData()`: serialize the whole `appState` and write it under
the fixed key. `storageAccepts` abstracts the storage medium accepting
or rejecting (quota exceeded, disabled storage) the `setItem` call; a
rejection is caught and only logged. -/
def saveUserData (s : AppState) (storageAccepts : Bool) : SaveOutcome :=
  if storageAccepts then
    { state := s, written := some (serializeAppState s), diagnostic := none }
  else
    { state := s, written := none, diagnostic := some ("localStorage save error") }

/-- Embedding of `loadUserData()`: read the stored value (`none` = key absent),
`JSON.parse` it (`Except.error` = parse throws, caught and logged,
state left at defaults), and on success `Object.assign` the parsed
object onto the current state. -/
def loadUserData (s : AppState) (saved : Option (Except Unit StoredState)) : AppState :=
  match saved with
  | none => s
  | some (Except.error _) => s
  | some (Except.ok parsed) => objectAssign s parsed

/-- The fixed simulated-crew name pool of `addCrewMember`. -/
def crewNames : List String :=
  ["Alex", "Jordan", "Casey", "Morgan", "Riley", "Taylor"]

/-- Embedding of `names[Math.floor(Math.random() * names.length)]`: the random draw
abstracted to its index `i` into the six-name pool. -/
def randomName (i : Fin 6) : String :=
  crewNames.get ⟨i.val, by simp [crewNames]⟩

/-- Embedding of `addCrewMember(cleanupName)`: build a member from a randomly drawn
name (index `i`), the cleanup's name and today's formatted date, and
push it onto `crew` only when no existing member already has that name.
-/
def addCrewMember (s : AppState) (cleanupName : String) (i : Fin 6) (today : String) : AppState :=
  let member : CrewMember :=
    { name := randomName i, cleanup := cleanupName, joined := today }
  if (s.crew.find? (fun m => m.name == member.name)).isSome then s
  else { s with crew := s.crew ++ [member] }

/-- Embedding of `handleJoinCleanup(event)` restricted to its effect on the
application state: add a crew member, then bump the three counters —
`cleanupsJoined += 1`, `pointsEarned += 10`, and
`trashCollected += Math.floor(Math.random() * 20) + 5`, the random draw
abstracted to `r : Fin 20` so the increment is `r + 5`. DOM feedback,
re-rendering and the `saveUserData()` side effect do not change the
state. -/
def handleJoinCleanup (s : AppState) (cleanupName : String) (i : Fin 6) (r : Fin 20) (today : String) : AppState :=
  let s1 := addCrewMember s cleanupName i today
  { s1 with userStats :=
      { cleanupsJoined := s1.userStats.cleanupsJoined.map (· + 1)
        pointsEarned := s1.userStats.pointsEarned.map (· + 10)
        trashCollected := s1.userStats.trashCollected.map (· + ((r.val : Int) + 5)) } }

/-- States reachable from the documented defaults solely through join
actions. -/
inductive Reachable : AppState → Prop
  | init : Reachable appState
  | join (s : AppState) (cleanupName : String) (i : Fin 6) (r : Fin 20) (today : String) :
      Reachable s → Reachable (handleJoinCleanup s cleanupName i r today)

/-- All three stats counters are present and non-negative. -/
def statsDefinedNonneg (s : AppState) : Prop :=
  ∃ c t p : Int,
    s.userStats =
      { cleanupsJoined := some c, trashCollected := some t, pointsEarned := some p } ∧
    0 ≤ c ∧ 0 ≤ t ∧ 0 ≤ p

/-- Crew names are pairwise distinct and drawn from the fixed pool. -/
def crewOk (s : AppState) : Prop :=
  (s.crew.map CrewMember.name).Nodup ∧ ∀ m ∈ s.crew, m.name ∈ crewNames


/-- Character-list test that `pat` occurs at the very start of `s`. -/
def matchesHere : List Char → List Char → Bool
  | _, [] => true
  | [], _ :: _ => false
  | c :: cs, p :: ps => c == p && matchesHere cs ps

/-- Character-list test that `pat` occurs somewhere in `s`. -/
def occursIn (pat : List Char) : List Char → Bool
  | [] => matchesHere [] pat
  | c :: cs => matchesHere (c :: cs) pat || occursIn pat cs

/-- JS `s.includes(pat)`: case-sensitive substring containment. -/
def strIncludes (s pat : String) : Bool :=
  occursIn pat.toList s.toList

/-- JS `s.toLowerCase()` restricted to the ASCII range, which is all the
keyword matching below ever exercises (Lean's own `Char.toLower` is the
same ASCII mapping). -/
def jsToLowerCase (s : String) : String :=
  String.mk (s.toList.map Char.toLower)

/-- Embedding of `getWeatherEmoji(weatherText)`: map an NEA free-text forecast to an
emoji by case-insensitive substring matching, first matching rule wins,
with a default for unmatched text. -/
def getWeatherEmoji (weatherText : String) : String :=
  let text := jsToLowerCase weatherText
  if strIncludes text ("clear") || strIncludes text ("sunny") then ("☀️")
  else if strIncludes text ("partly cloudy") then ("⛅")
  else if strIncludes text ("cloudy") || strIncludes text ("overcast") then ("☁️")
  else if strIncludes text ("rain") || strIncludes text ("thunder") then ("🌧️")
  else if strIncludes text ("storm") then ("⛈️")
  else if strIncludes text ("wind") then ("💨")
  else if strIncludes text ("fog") || strIncludes text ("haze") then ("🌫️")
  else ("🌤️")

/-- One entry of `items[0].forecasts` in the 4-day forecast response.
`forecast` is an `Option` because an entry lacking the key makes
`forecast.forecast.toLowerCase()` throw inside the render loop; the
`date` and `temperature` fields are only ever interpolated into text
(an absent date or a short temperature array renders as `undefined`,
it never throws), so `date` stays a plain string and the temperature
array is indexed with `Option`-valued lookups. -/
structure ForecastEntry where
  date : String
  forecast : Option String
  temperature : List Int
deriving DecidableEq

/-- One element of the response's `items` array. `forecasts` is an
`Option`: an absent key is replaced by `[]` via the source's `|| []`. -/
structure ForecastItem where
  forecasts : Option (List ForecastEntry)
deriving DecidableEq

/-- The 4-day forecast response body. `items` is an `Option`: when the
key is absent, `items[0]` throws and the error path runs. -/
structure ForecastData where
  items : Option (List ForecastItem)
deriving DecidableEq

/-- One rendered forecast card: weekday label, month/day label, emoji
icon, forecast text, and the two ends of the temperature range
(`none` renders as the text `undefined`). -/
structure ForecastCard where
  dayName : String
  dateStr : String
  icon : String
  text : String
  tempLow : Option Int
  tempHigh : Option Int
deriving DecidableEq

/-- What ends up in the `weatherData` display region: either a batch of
forecast cards replacing prior content, or the static
forecast-unavailable notice. -/
inductive RenderOut
  | forecastGrid (cards : List ForecastCard)
  | errorNotice
deriving DecidableEq

/-- The error path `displayWeatherError()`: replace the display region
with the static notice. -/
def displayWeatherError : RenderOut :=
  RenderOut.errorNotice

/-- The card built for one forecast entry whose condition text is
`txt`. `fmtDay` and `fmtDate` are the platform's locale formatting of
`new Date(entry.date + 'T12:00:00')` (weekday resp. month/day form);
they are uninterpreted parameters. -/
def mkForecastCard (fmtDay fmtDate : String → String) (f : ForecastEntry) (txt : String) : ForecastCard :=
  { dayName := fmtDay f.date
    dateStr := fmtDate f.date
    icon := getWeatherEmoji txt
    text := txt
    tempLow := f.temperature[0]?
    tempHigh := f.temperature[1]? }

/-- The render loop body over the (already truncated) forecast list:
builds one card per entry, left to right, aborting with `none` (a
thrown `TypeError`) at the first entry whose `forecast` text is
absent. An abort anywhere renders nothing, because the source only
assigns `weatherData.innerHTML` after the whole loop. -/
def renderCards (fmtDay fmtDate : String → String) : List ForecastEntry → Option (List ForecastCard)
  | [] => some []
  | f :: rest =>
    match f.forecast with
    | none => none
    | some txt =>
      match renderCards fmtDay fmtDate rest with
      | none => none
      | some cards => some (mkForecastCard fmtDay fmtDate f txt :: cards)

/-- Embedding of `displayWeatherForecast(currentData, forecastData)`. `currentData`
is accepted and ignored, as in the source. Reading `items` when absent,
or `items[0]` of an empty array, throws inside the `try` and lands in
the error path; otherwise up to the first 4 entries of
`items[0].forecasts || []` are rendered as cards. -/
def displayWeatherForecast {α : Type} (currentData : α) (forecastData : ForecastData)
    (fmtDay fmtDate : String → String) : RenderOut :=
  match forecastData.items with
  | none => displayWeatherError
  | some items =>
    match items[0]? with
    | none => displayWeatherError
    | some firstItem =>
      let forecasts := firstItem.forecasts.getD []
      match renderCards fmtDay fmtDate (forecasts.take 4) with
      | none => displayWeatherError
      | some cards => RenderOut.forecastGrid cards

/-- An awaited `fetch` response: its HTTP success flag and the result
of `response.json()` (`Except.error` = the JSON body fails to parse,
throwing into the surrounding `try`). -/
structure FetchResponse (α : Type) where
  ok : Bool
  json : Except Unit α

/-- Embedding of `fetchWeatherData()` after both awaits have produced responses: a
non-success status on either response, or a JSON parse failure of
either body, throws to the `catch` and renders the error notice;
otherwise the two bodies go to `displayWeatherForecast`. -/
def fetchWeatherData {α : Type} (currentResponse : FetchResponse α)
    (forecastResponse : FetchResponse ForecastData)
    (fmtDay fmtDate : String → String) : RenderOut :=
  if !currentResponse.ok || !forecastResponse.ok then displayWeatherError
  else
    match currentResponse.json, forecastResponse.json with
    | Except.ok currentData, Except.ok forecastData =>
        displayWeatherForecast currentData forecastData fmtDay fmtDate
    | Except.error _, _ => displayWeatherError
    | _, Except.error _ => displayWeatherError

/-- A sample one-entry forecast response used to exercise the render
pipeline at a concrete input. -/
def sampleEntry : ForecastEntry :=
  { date := "2025-01-01", forecast := some ("Thundery Showers"), temperature := [25, 31] }

/-- The sample response wrapping `sampleEntry`. -/
def sampleForecastData : ForecastData :=
  { items := some [{ forecasts := some [sampleEntry] }] }

end ShoreSquad

namespace App

/-- The `daily` object of the open-meteo response consumed by
`displayWeather` in src/js/app.js: four parallel arrays. Numeric
values are decimal JSON numbers, embedded as rationals. -/
structure DailyData where
  time : List String
  temperature_2m_max : List Rat
  temperature_2m_min : List Rat
  precipitation_sum : List Rat
deriving DecidableEq

/-- The open-meteo response body. `daily` is an `Option`: when the key
is absent, `daily.time` throws and the caller's catch renders the
error notice. -/
structure OpenMeteoData where
  daily : Option DailyData
deriving DecidableEq

/-- One rendered `weather-item`: the raw values looked up at one index.
An out-of-range index yields `undefined` (`none`), which the template
interpolates as text — it never throws. Locale formatting of the date
is a platform capability applied to the looked-up value at render
time. -/
structure WeatherItem where
  dateStr : Option String
  maxTemp : Option Rat
  minTemp : Option Rat
  precipitation : Option Rat
deriving DecidableEq

/-- Embedding of `displayWeather(data)`: unconditionally renders indices 0, 1, 2 of
the four `daily` arrays, with no truncation to their length. `none` =
reading `daily.time` of an absent `daily` throws a `TypeError` that
propagates to `fetchWeatherData`'s catch. -/
def displayWeather (data : OpenMeteoData) : Option (List WeatherItem) :=
  match data.daily with
  | none => none
  | some daily =>
    some ((List.range 3).map fun i =>
      { dateStr := daily.time[i]?
        maxTemp := daily.temperature_2m_max[i]?
        minTemp := daily.temperature_2m_min[i]?
        precipitation := daily.precipitation_sum[i]? })

/-- A sample open-meteo `daily` object with fewer than 3 entries per
array, used to exercise the out-of-bounds rendering at a concrete
input. -/
def sampleDaily : DailyData :=
  { time := ["2025-01-01"]
    temperature_2m_max := [20]
    temperature_2m_min := [15]
    precipitation_sum := [] }

/-- What ends up in the `weatherData` region of src/js/app.js. -/
inductive AppRender
  | weatherItems (items : List WeatherItem)
  | errorNotice
deriving DecidableEq

/-- An awaited `fetch` response for the open-meteo request. -/
structure FetchResponse (α : Type) where
  ok : Bool
  json : Except Unit α

/-- Embedding of `fetchWeatherData()` of src/js/app.js after the await: non-success
status or JSON parse failure throws to the catch and renders the error
notice; otherwise `displayWeather` runs (and only a missing `daily`
can still throw into the catch). -/
def fetchWeatherData (response : FetchResponse OpenMeteoData) : AppRender :=
  if !response.ok then AppRender.errorNotice
  else
    match response.json with
    | Except.error _ => AppRender.errorNotice
    | Except.ok data =>
      match displayWeather data with
      | none => AppRender.errorNotice
      | some items => AppRender.weatherItems items

end App

namespace ShoreSquad

theorem addCrewMember_userStats (s : AppState) (cn : String) (i : Fin 6) (d : String) :
    (addCrewMember s cn i d).userStats = s.userStats := by
  unfold addCrewMember
  dsimp only
  split <;> rfl

theorem addCrewMember_cleanups (s : AppState) (cn : String) (i : Fin 6) (d : String) :
    (addCrewMember s cn i d).cleanups = s.cleanups := by
  unfold addCrewMember
  dsimp only
  split <;> rfl

theorem addCrewMember_userLocation (s : AppState) (cn : String) (i : Fin 6) (d : String) :
    (addCrewMember s cn i d).userLocation = s.userLocation := by
  unfold addCrewMember
  dsimp only
  split <;> rfl

theorem handleJoinCleanup_crew (s : AppState) (cn : String) (i : Fin 6) (r : Fin 20) (d : String) :
    (handleJoinCleanup s cn i r d).crew = (addCrewMember s cn i d).crew := rfl

theorem handleJoinCleanup_userStats (s : AppState) (cn : String) (i : Fin 6) (r : Fin 20) (d : String) :
    (handleJoinCleanup s cn i r d).userStats =
      { cleanupsJoined := s.userStats.cleanupsJoined.map (· + 1)
        trashCollected := s.userStats.trashCollected.map (· + ((r.val : Int) + 5))
        pointsEarned := s.userStats.pointsEarned.map (· + 10) } := by
  simp only [handleJoinCleanup, addCrewMember_userStats]

theorem randomName_mem (i : Fin 6) : randomName i ∈ crewNames :=
  List.get_mem crewNames _ _

/-- The guard of `addCrewMember` fires exactly when the drawn name is
already among the crew's names. -/
theorem addCrewMember_find?_isSome (s : AppState) (i : Fin 6) :
    (s.crew.find? (fun m => m.name == randomName i)).isSome = true ↔
      randomName i ∈ s.crew.map CrewMember.name := by
  simp only [List.find?_isSome, beq_iff_eq, List.mem_map]

/-- If the drawn name is not yet in the crew, `addCrewMember` appends
the new member at the end. -/
theorem addCrewMember_push (s : AppState) (cn : String) (i : Fin 6) (d : String)
    (h : randomName i ∉ s.crew.map CrewMember.name) :
    (addCrewMember s cn i d).crew =
      s.crew ++ [{ name := randomName i, cleanup := cn, joined := d }] := by
  have hneg : ¬ ((s.crew.find? (fun m => m.name == randomName i)).isSome = true) := by
    intro hsome
    exact h ((addCrewMember_find?_isSome s i).mp hsome)
  unfold addCrewMember
  dsimp only
  rw [if_neg hneg]

/-- If the drawn name is already in the crew, `addCrewMember` leaves
the whole state unchanged. -/
theorem addCrewMember_dup (s : AppState) (cn : String) (i : Fin 6) (d : String)
    (h : randomName i ∈ s.crew.map CrewMember.name) :
    addCrewMember s cn i d = s := by
  have hpos := (addCrewMember_find?_isSome s i).mpr h
  unfold addCrewMember
  dsimp only
  rw [if_pos hpos]

/-- Invariant of all join-reachable states: the stats counters are
present and non-negative, crew names are pairwise distinct, and every
crew name comes from the fixed pool. -/
theorem reachable_inv : ∀ s, Reachable s → statsDefinedNonneg s ∧ crewOk s := by
  intro s h
  induction h with
  | init =>
    refine ⟨⟨0, 0, 0, rfl, le_refl 0, le_refl 0, le_refl 0⟩, ?_, ?_⟩
    · simp [appState]
    · simp [appState]
  | join s cn i r d hs ih =>
    obtain ⟨⟨c, t, p, hstats, hc, ht, hp⟩, hnodup, hpool⟩ := ih
    refine ⟨⟨c + 1, t + ((r.val : Int) + 5), p + 10, ?_, by omega, ?_, by omega⟩, ?_⟩
    · rw [handleJoinCleanup_userStats, hstats]
      rfl
    · have : (0 : Int) ≤ (r.val : Int) := Int.ofNat_nonneg r.val
      omega
    · by_cases hmem : randomName i ∈ s.crew.map CrewMember.name
      · constructor
        · rw [handleJoinCleanup_crew, addCrewMember_dup s cn i d hmem]
          exact hnodup
        · intro m hm
          rw [handleJoinCleanup_crew, addCrewMember_dup s cn i d hmem] at hm
          exact hpool m hm
      · constructor
        · rw [handleJoinCleanup_crew, addCrewMember_push s cn i d hmem, List.map_append]
          refine List.Nodup.append hnodup (List.nodup_singleton _) ?_
          intro x hx hx'
          rw [List.map_singleton, List.mem_singleton] at hx'
          subst hx'
          exact hmem hx
        · intro m hm
          rw [handleJoinCleanup_crew, addCrewMember_push s cn i d hmem] at hm
          rcases List.mem_append.mp hm with h1 | h2
          · exact hpool m h1
          · rw [List.mem_singleton] at h2
            subst h2
            exact randomName_mem i

end ShoreSquad

namespace ShoreSquad

/-- C3: loading a stored serialization whose `userStats` object holds
only `pointsEarned = 50` yields a merged state whose
`userStats.pointsEarned` is 50 while the fields absent from the stored
object (`cleanupsJoined`, `trashCollected`) are undefined; in general
the merge replaces each top-level field wholesale — a stored
`userStats` object becomes the merged `userStats` as-is, with no
recursion into it. -/
theorem loadUserData_shallow_merge :
    (loadUserData appState (some (Except.ok
        { userLocation := none, crew := none, cleanups := none,
          userStats := some
            { cleanupsJoined := none, trashCollected := none,
              pointsEarned := some 50 } }))).userStats.pointsEarned = some 50 ∧
    (loadUserData appState (some (Except.ok
        { userLocation := none, crew := none, cleanups := none,
          userStats := some
            { cleanupsJoined := none, trashCollected := none,
              pointsEarned := some 50 } }))).userStats.trashCollected = none ∧
    (loadUserData appState (some (Except.ok
        { userLocation := none, crew := none, cleanups := none,
          userStats := some
            { cleanupsJoined := none, trashCollected := none,
              pointsEarned := some 50 } }))).userStats.cleanupsJoined = none ∧
    ∀ (target : AppState) (st : StoredState) (us : UserStatsObj),
      st.userStats = some us →
        (loadUserData target (some (Except.ok st))).userStats = us := by
  refine ⟨rfl, rfl, rfl, ?_⟩
  intro target st us h
  simp [loadUserData, objectAssign, h]

theorem loadUserData_shallow_merge_witness :
    (loadUserData appState (some (Except.ok
        { userLocation := none, crew := none, cleanups := none,
          userStats := some
            { cleanupsJoined := none, trashCollected := none,
              pointsEarned := some 50 } }))).userStats =
      { cleanupsJoined := none, trashCollected := none, pointsEarned := some 50 } :=
  loadUserData_shallow_merge.2.2.2 appState
    { userLocation := none, crew := none, cleanups := none,
      userStats := some
        { cleanupsJoined := none, trashCollected := none, pointsEarned := some 50 } }
    { cleanupsJoined := none, trashCollected := none, pointsEarned := some 50 }
    rfl

/-- C2: in every join-reachable state the crew holds at most one member
per distinct name; a join that draws an already-present name leaves
`crew` unchanged while still incrementing all three counters; and the
counters can thereby exceed the crew size, witnessed by a reachable
state with `cleanupsJoined = 2` but a single crew member. -/
theorem crew_unique_dup_join_still_counts :
    (∀ s, Reachable s →
      (s.crew.map CrewMember.name).Nodup ∧
      ∀ (cn : String) (i : Fin 6) (r : Fin 20) (d : String),
        randomName i ∈ s.crew.map CrewMember.name →
          (handleJoinCleanup s cn i r d).crew = s.crew ∧
          ∃ c t p : Int,
            s.userStats = { cleanupsJoined := some c, trashCollected := some t,
                            pointsEarned := some p } ∧
            (handleJoinCleanup s cn i r d).userStats =
              { cleanupsJoined := some (c + 1),
                trashCollected := some (t + ((r.val : Int) + 5)),
                pointsEarned := some (p + 10) }) ∧
    (∃ s : AppState, Reachable s ∧ ∃ n : Int,
      s.userStats.cleanupsJoined = some n ∧ (s.crew.length : Int) < n) := by
  constructor
  · intro s hs
    obtain ⟨⟨c, t, p, hstats, -, -, -⟩, hnodup, -⟩ := reachable_inv s hs
    refine ⟨hnodup, ?_⟩
    intro cn i r d hmem
    refine ⟨?_, c, t, p, hstats, ?_⟩
    · rw [handleJoinCleanup_crew, addCrewMember_dup s cn i d hmem]
    · rw [handleJoinCleanup_userStats, hstats]
      rfl
  · refine ⟨handleJoinCleanup (handleJoinCleanup appState ("Venice Beach") 0 0 ("1/1/2025"))
        ("Venice Beach") 0 0 ("1/1/2025"),
      Reachable.join _ _ _ _ _ (Reachable.join _ _ _ _ _ Reachable.init), 2, by decide, by decide⟩

theorem crew_unique_dup_join_still_counts_witness :
    ((handleJoinCleanup (handleJoinCleanup appState ("Venice Beach") 0 0 ("1/1/2025"))
        ("Venice Beach") 0 0 ("1/1/2025")).crew =
      (handleJoinCleanup appState ("Venice Beach") 0 0 ("1/1/2025")).crew ∧
    ∃ c t p : Int,
      (handleJoinCleanup appState ("Venice Beach") 0 0 ("1/1/2025")).userStats =
        { cleanupsJoined := some c, trashCollected := some t, pointsEarned := some p } ∧
      (handleJoinCleanup (handleJoinCleanup appState ("Venice Beach") 0 0 ("1/1/2025"))
          ("Venice Beach") 0 0 ("1/1/2025")).userStats =
        { cleanupsJoined := some (c + 1),
          trashCollected := some (t + (((0 : Fin 20).val : Int) + 5)),
          pointsEarned := some (p + 10) }) := by
  have h := (crew_unique_dup_join_still_counts.1
      (handleJoinCleanup appState ("Venice Beach") 0 0 ("1/1/2025"))
      (Reachable.join _ _ _ _ _ Reachable.init)).2
    ("Venice Beach") 0 0 ("1/1/2025") (by decide)
  exact h

/-- C6: from any join-reachable state, a join action increments
`cleanupsJoined` by exactly 1, `pointsEarned` by exactly 10 and
`trashCollected` by `r + 5 ∈ [5,24]`; each counter strictly or weakly
grows, and no counter is ever negative (before or, consequently,
after). -/
theorem join_increments_stats :
    ∀ (s : AppState), Reachable s →
      ∀ (cn : String) (i : Fin 6) (r : Fin 20) (d : String),
        ∃ c t p : Int,
          s.userStats = { cleanupsJoined := some c, trashCollected := some t,
                          pointsEarned := some p } ∧
          0 ≤ c ∧ 0 ≤ t ∧ 0 ≤ p ∧
          (handleJoinCleanup s cn i r d).userStats =
            { cleanupsJoined := some (c + 1),
              trashCollected := some (t + ((r.val : Int) + 5)),
              pointsEarned := some (p + 10) } ∧
          c < c + 1 ∧ t ≤ t + ((r.val : Int) + 5) ∧ p < p + 10 ∧
          5 ≤ (r.val : Int) + 5 ∧ (r.val : Int) + 5 ≤ 24 := by
  intro s hs cn i r d
  obtain ⟨⟨c, t, p, hstats, hc, ht, hp⟩, -⟩ := reachable_inv s hs
  have hr0 : (0 : Int) ≤ (r.val : Int) := Int.ofNat_nonneg r.val
  have hr19 : (r.val : Int) ≤ 19 := by
    have := r.isLt
    omega
  refine ⟨c, t, p, hstats, hc, ht, hp, ?_, by omega, by omega, by omega, by omega, by omega⟩
  rw [handleJoinCleanup_userStats, hstats]
  rfl

theorem join_increments_stats_witness :
    ∃ c t p : Int,
      appState.userStats = { cleanupsJoined := some c, trashCollected := some t,
                             pointsEarned := some p } ∧
      0 ≤ c ∧ 0 ≤ t ∧ 0 ≤ p ∧
      (handleJoinCleanup appState ("Venice Beach") 0 7 ("1/1/2025")).userStats =
        { cleanupsJoined := some (c + 1),
          trashCollected := some (t + (((7 : Fin 20).val : Int) + 5)),
          pointsEarned := some (p + 10) } ∧
      c < c + 1 ∧ t ≤ t + (((7 : Fin 20).val : Int) + 5) ∧ p < p + 10 ∧
      5 ≤ (((7 : Fin 20).val : Int) + 5) ∧ (((7 : Fin 20).val : Int) + 5) ≤ 24 :=
  join_increments_stats appState Reachable.init ("Venice Beach") 0 7 ("1/1/2025")

/-- C7: for every join-reachable state, serializing it with
`saveUserData` and loading the stored payload into a fresh
default-initialized state reproduces the saved state exactly. -/
theorem save_load_roundtrip :
    ∀ s : AppState, Reachable s →
      ∀ stored : StoredState,
        (saveUserData s true).written = some stored →
          loadUserData appState (some (Except.ok stored)) = s := by
  intro s _ stored hw
  have hser : serializeAppState s = stored := by
    simpa [saveUserData] using hw
  subst hser
  rfl

theorem save_load_roundtrip_witness :
    loadUserData appState (some (Except.ok
        (serializeAppState (handleJoinCleanup appState ("Venice Beach") 0 7 ("1/1/2025"))))) =
      handleJoinCleanup appState ("Venice Beach") 0 7 ("1/1/2025") :=
  save_load_roundtrip (handleJoinCleanup appState ("Venice Beach") 0 7 ("1/1/2025"))
    (Reachable.join _ _ _ _ _ Reachable.init)
    (serializeAppState (handleJoinCleanup appState ("Venice Beach") 0 7 ("1/1/2025")))
    rfl

/-- C8: `saveUserData` is total — the catch keeps any storage-medium
rejection from escaping to the caller — it leaves the in-memory state
unchanged in all cases, and on a rejected write nothing reaches the
medium and the failure is reported only on the diagnostic channel. -/
theorem saveUserData_silent_failure :
    ∀ (s : AppState) (storageAccepts : Bool),
      (saveUserData s storageAccepts).state = s ∧
      (storageAccepts = false →
        (saveUserData s storageAccepts).written = none ∧
        (saveUserData s storageAccepts).diagnostic = some ("localStorage save error")) := by
  intro s storageAccepts
  cases storageAccepts <;> simp [saveUserData]

theorem saveUserData_silent_failure_witness :
    (saveUserData appState false).state = appState ∧
    (saveUserData appState false).written = none ∧
    (saveUserData appState false).diagnostic = some ("localStorage save error") := by
  have h := saveUserData_silent_failure appState false
  exact ⟨h.1, (h.2 rfl).1, (h.2 rfl).2⟩

/-- C10: no sequence of join actions grows the crew beyond six members:
names come from a fixed six-name pool and duplicates are never pushed.
-/
theorem crew_length_le_six :
    ∀ s : AppState, Reachable s → s.crew.length ≤ 6 := by
  intro s hs
  obtain ⟨-, hnodup, hpool⟩ := reachable_inv s hs
  have hsub : (s.crew.map CrewMember.name) ⊆ crewNames := by
    intro x hx
    obtain ⟨m, hm, rfl⟩ := List.mem_map.mp hx
    exact hpool m hm
  have hlen := (List.subperm_of_subset hnodup hsub).length_le
  simpa [crewNames] using hlen

theorem crew_length_le_six_witness :
    (handleJoinCleanup appState ("Venice Beach") 0 7 ("1/1/2025")).crew.length ≤ 6 :=
  crew_length_le_six (handleJoinCleanup appState ("Venice Beach") 0 7 ("1/1/2025"))
    (Reachable.join _ _ _ _ _ Reachable.init)

/-- When every entry carries a condition text, the render loop builds
one card per entry, in order, and no exception aborts it. -/
theorem renderCards_all_some (fmtDay fmtDate : String → String) :
    ∀ l : List ForecastEntry, (∀ e ∈ l, e.forecast.isSome) →
      renderCards fmtDay fmtDate l =
        some (l.map fun e => mkForecastCard fmtDay fmtDate e (e.forecast.getD (""))) := by
  intro l
  induction l with
  | nil => intro _; rfl
  | cons f rest ih =>
    intro h
    obtain ⟨txt, htxt⟩ := Option.isSome_iff_exists.mp (h f (List.mem_cons_self f rest))
    have hrest := ih (fun e he => h e (List.mem_cons_of_mem f he))
    simp [renderCards, htxt, hrest]

/-- C1: for a valid forecast response whose first item carries N
entries, `displayWeatherForecast` renders a grid of exactly min(N,4)
cards; the k-th card's icon is `getWeatherEmoji` of the k-th entry's
condition text — the fixed-priority, case-insensitive,
first-match-wins keyword rule — and in particular the text "Thundery
Showers" yields the rain/thunder icon, not the default. -/
theorem displayWeatherForecast_min4_icons {α : Type} (currentData : α)
    (fd : ForecastData) (fmtDay fmtDate : String → String)
    (item : ForecastItem) (rest : List ForecastItem) (entries : List ForecastEntry)
    (hitems : fd.items = some (item :: rest))
    (hfore : item.forecasts = some entries)
    (hvalid : ∀ e ∈ entries, e.forecast.isSome) :
    ∃ cards : List ForecastCard,
      displayWeatherForecast currentData fd fmtDay fmtDate = RenderOut.forecastGrid cards ∧
      cards.length = min entries.length 4 ∧
      (∀ (k : Nat) (hk : k < cards.length) (hk' : k < entries.length),
        (cards.get ⟨k, hk⟩).icon =
          getWeatherEmoji ((entries.get ⟨k, hk'⟩).forecast.getD (""))) ∧
      getWeatherEmoji ("Thundery Showers") = "🌧️" := by
  have htake : ∀ e ∈ entries.take 4, e.forecast.isSome :=
    fun e he => hvalid e (List.mem_of_mem_take he)
  refine ⟨(entries.take 4).map
      (fun e => mkForecastCard fmtDay fmtDate e (e.forecast.getD (""))), ?_, ?_, ?_, by decide⟩
  · simp only [displayWeatherForecast, hitems, hfore, List.getElem?_cons_zero,
      Option.getD_some, renderCards_all_some fmtDay fmtDate (entries.take 4) htake]
  · simp [Nat.min_comm]
  · intro k hk hk'
    simp [List.get_eq_getElem, mkForecastCard]

theorem displayWeatherForecast_min4_icons_witness :
    ∃ cards : List ForecastCard,
      displayWeatherForecast (0 : Nat) sampleForecastData (fun s => s) (fun s => s) =
        RenderOut.forecastGrid cards ∧
      cards.length = min 1 4 ∧
      (∀ (k : Nat) (hk : k < cards.length) (hk' : k < ([sampleEntry] : List ForecastEntry).length),
        (cards.get ⟨k, hk⟩).icon =
          getWeatherEmoji ((([sampleEntry] : List ForecastEntry).get ⟨k, hk'⟩).forecast.getD (""))) ∧
      getWeatherEmoji ("Thundery Showers") = "🌧️" := by
  have h := displayWeatherForecast_min4_icons (0 : Nat) sampleForecastData
    (fun s => s) (fun s => s) { forecasts := some [sampleEntry] } [] [sampleEntry]
    rfl rfl (by decide)
  simpa using h

/-- C4: if either of the two weather responses reports a non-success
status, the pipeline renders the forecast-unavailable notice and no
forecast cards, even when the other response is successful and
well-formed. -/
theorem fetchWeatherData_error_on_bad_status {α : Type} (currentResponse : FetchResponse α)
    (forecastResponse : FetchResponse ForecastData) (fmtDay fmtDate : String → String)
    (h : currentResponse.ok = false ∨ forecastResponse.ok = false) :
    fetchWeatherData currentResponse forecastResponse fmtDay fmtDate = RenderOut.errorNotice ∧
    ∀ cards, fetchWeatherData currentResponse forecastResponse fmtDay fmtDate ≠
      RenderOut.forecastGrid cards := by
  have hcond : (!currentResponse.ok || !forecastResponse.ok) = true := by
    rcases h with h | h <;> simp [h]
  constructor
  · simp [fetchWeatherData, hcond, displayWeatherError]
  · intro cards
    simp [fetchWeatherData, hcond, displayWeatherError]

theorem fetchWeatherData_error_on_bad_status_witness :
    fetchWeatherData { ok := false, json := Except.ok (0 : Nat) }
        { ok := true, json := Except.ok { items := some [{ forecasts := some [] }] } }
        (fun s => s) (fun s => s) = RenderOut.errorNotice ∧
    ∀ cards, fetchWeatherData { ok := false, json := Except.ok (0 : Nat) }
        { ok := true, json := Except.ok { items := some [{ forecasts := some [] }] } }
        (fun s => s) (fun s => s) ≠ RenderOut.forecastGrid cards :=
  fetchWeatherData_error_on_bad_status { ok := false, json := Except.ok (0 : Nat) }
    { ok := true, json := Except.ok { items := some [{ forecasts := some [] }] } }
    (fun s => s) (fun s => s) (Or.inl rfl)

/-- C5: a forecast response lacking the `items` key, or carrying
`items: []`, sends rendering to the error notice — never to a half-filled
or empty forecast grid. -/
theorem displayWeatherForecast_shape_error {α : Type} (currentData : α)
    (fd : ForecastData) (fmtDay fmtDate : String → String)
    (h : fd.items = none ∨ fd.items = some []) :
    displayWeatherForecast currentData fd fmtDay fmtDate = RenderOut.errorNotice ∧
    ∀ cards, displayWeatherForecast currentData fd fmtDay fmtDate ≠
      RenderOut.forecastGrid cards := by
  rcases h with h | h
  · constructor
    · simp [displayWeatherForecast, h, displayWeatherError]
    · intro cards
      simp [displayWeatherForecast, h, displayWeatherError]
  · constructor
    · simp [displayWeatherForecast, h, displayWeatherError]
    · intro cards
      simp [displayWeatherForecast, h, displayWeatherError]

theorem displayWeatherForecast_shape_error_witness :
    displayWeatherForecast (0 : Nat) { items := some [] } (fun s => s) (fun s => s) =
      RenderOut.errorNotice ∧
    ∀ cards, displayWeatherForecast (0 : Nat) { items := some [] } (fun s => s) (fun s => s) ≠
      RenderOut.forecastGrid cards :=
  displayWeatherForecast_shape_error (0 : Nat) { items := some [] } (fun s => s) (fun s => s)
    (Or.inr rfl)

end ShoreSquad

namespace App

/-- A positional lookup is defined exactly when the index is in
bounds. -/
theorem isSome_getElem?_iff {α : Type} (l : List α) (i : Nat) :
    l[i]?.isSome = true ↔ i < l.length := by
  rw [Option.isSome_iff_ne_none, ne_eq, List.getElem?_eq_none_iff]
  omega

/-- C9: `displayWeather` in src/js/app.js always renders exactly 3
entries, unconditionally indexing the four `daily` arrays at positions
0–2 with no truncation to their length; every lookup is in-bounds iff
each array has length at least 3; and for shorter arrays the rendered
output carries the out-of-bounds `undefined` values — the pipeline
still renders, it does not take the error-display path. -/
theorem displayWeather_three_unconditional (d : DailyData) :
    ∃ items : List WeatherItem,
      displayWeather { daily := some d } = some items ∧
      items =
        [ { dateStr := d.time[0]?, maxTemp := d.temperature_2m_max[0]?,
            minTemp := d.temperature_2m_min[0]?, precipitation := d.precipitation_sum[0]? },
          { dateStr := d.time[1]?, maxTemp := d.temperature_2m_max[1]?,
            minTemp := d.temperature_2m_min[1]?, precipitation := d.precipitation_sum[1]? },
          { dateStr := d.time[2]?, maxTemp := d.temperature_2m_max[2]?,
            minTemp := d.temperature_2m_min[2]?, precipitation := d.precipitation_sum[2]? } ] ∧
      items.length = 3 ∧
      ((∀ item ∈ items, item.dateStr.isSome ∧ item.maxTemp.isSome ∧
          item.minTemp.isSome ∧ item.precipitation.isSome) ↔
        (3 ≤ d.time.length ∧ 3 ≤ d.temperature_2m_max.length ∧
         3 ≤ d.temperature_2m_min.length ∧ 3 ≤ d.precipitation_sum.length)) ∧
      fetchWeatherData { ok := true, json := Except.ok { daily := some d } } =
        AppRender.weatherItems items ∧
      fetchWeatherData { ok := true, json := Except.ok { daily := some d } } ≠
        AppRender.errorNotice := by
  have hdisp : displayWeather { daily := some d } = some
      [ { dateStr := d.time[0]?, maxTemp := d.temperature_2m_max[0]?,
          minTemp := d.temperature_2m_min[0]?, precipitation := d.precipitation_sum[0]? },
        { dateStr := d.time[1]?, maxTemp := d.temperature_2m_max[1]?,
          minTemp := d.temperature_2m_min[1]?, precipitation := d.precipitation_sum[1]? },
        { dateStr := d.time[2]?, maxTemp := d.temperature_2m_max[2]?,
          minTemp := d.temperature_2m_min[2]?, precipitation := d.precipitation_sum[2]? } ] := rfl
  have hfetch : fetchWeatherData { ok := true, json := Except.ok { daily := some d } } =
      AppRender.weatherItems
        [ { dateStr := d.time[0]?, maxTemp := d.temperature_2m_max[0]?,
            minTemp := d.temperature_2m_min[0]?, precipitation := d.precipitation_sum[0]? },
          { dateStr := d.time[1]?, maxTemp := d.temperature_2m_max[1]?,
            minTemp := d.temperature_2m_min[1]?, precipitation := d.precipitation_sum[1]? },
          { dateStr := d.time[2]?, maxTemp := d.temperature_2m_max[2]?,
            minTemp := d.temperature_2m_min[2]?, precipitation := d.precipitation_sum[2]? } ] := by
    simp [fetchWeatherData, hdisp]
  refine ⟨_, hdisp, rfl, rfl, ?_, hfetch, by simp [hfetch]⟩
  constructor
  · intro h
    have h2 := h
      { dateStr := d.time[2]?, maxTemp := d.temperature_2m_max[2]?,
        minTemp := d.temperature_2m_min[2]?, precipitation := d.precipitation_sum[2]? }
      (by simp)
    obtain ⟨ha, hb, hc, hd⟩ := h2
    refine ⟨?_, ?_, ?_, ?_⟩
    · have := (isSome_getElem?_iff d.time 2).mp ha
      omega
    · have := (isSome_getElem?_iff d.temperature_2m_max 2).mp hb
      omega
    · have := (isSome_getElem?_iff d.temperature_2m_min 2).mp hc
      omega
    · have := (isSome_getElem?_iff d.precipitation_sum 2).mp hd
      omega
  · intro h item hmem
    obtain ⟨h1, h2, h3, h4⟩ := h
    simp only [List.mem_cons, List.not_mem_nil, or_false] at hmem
    rcases hmem with rfl | rfl | rfl
    · exact ⟨(isSome_getElem?_iff _ 0).mpr (by omega),
        (isSome_getElem?_iff _ 0).mpr (by omega),
        (isSome_getElem?_iff _ 0).mpr (by omega),
        (isSome_getElem?_iff _ 0).mpr (by omega)⟩
    · exact ⟨(isSome_getElem?_iff _ 1).mpr (by omega),
        (isSome_getElem?_iff _ 1).mpr (by omega),
        (isSome_getElem?_iff _ 1).mpr (by omega),
        (isSome_getElem?_iff _ 1).mpr (by omega)⟩
    · exact ⟨(isSome_getElem?_iff _ 2).mpr (by omega),
        (isSome_getElem?_iff _ 2).mpr (by omega),
        (isSome_getElem?_iff _ 2).mpr (by omega),
        (isSome_getElem?_iff _ 2).mpr (by omega)⟩

theorem displayWeather_three_unconditional_witness :
    ∃ items : List WeatherItem,
      displayWeather { daily := some sampleDaily } = some items ∧ items.length = 3 := by
  obtain ⟨items, h1, -, h3, -⟩ := displayWeather_three_unconditional sampleDaily
  exact ⟨items, h1, h3⟩

end App
